import Mathlib

/-!
Shallow embedding of the StashVideohasherNodeVAAPI repository.

The pure sampling computations (`get_start_times`, `gridPlacement`,
`format_time`) are translated directly from
`helpers/preview_video_generator.py` and `helpers/video_sprite_generator.py`.
Stateful code (tag-store mutation in `helpers/stash_utils.py` and
`helpers/scene_processor.py`, filesystem effects of the sprite and preview
pipelines, the page selection of `helpers/scene_discovery.py`) is embedded as
explicit state passing over small state records, with subprocess and remote
outcomes supplied as boolean parameters.
-/

namespace Stash

/-! ## Sampling engine -/

/-- Embedding of `PreviewVideoGenerator.get_start_times` (preview_video_generator.py lines
98-100): `interval = (video_duration - skip_seconds - clip_length) / (num_clips + 1)`
and the returned list is `[skip_seconds + interval * i for i in range(1, num_clips + 1)]`.
Python float arithmetic is embedded as exact rational arithmetic. -/
def get_start_times (video_duration skip_seconds clip_length : ℚ)
    (num_clips : ℕ) : List ℚ :=
  let interval := (video_duration - skip_seconds - clip_length) / (num_clips + 1)
  (List.range num_clips).map (fun (i : ℕ) => skip_seconds + interval * ((i : ℚ) + 1))

/-- Grid placement used by `VideoSpriteGenerator.take_screenshots` (lines 97-98)
and `VideoSpriteGenerator.create_sprite` (lines 125-126):
`x = (i % columns) * max_width`, `y = (i // columns) * max_height`, and the tile
size `(max_width, max_height)` accompanies each cue rectangle. -/
def gridPlacement (index columns tile_width tile_height : ℕ) : ℕ × ℕ × ℕ × ℕ :=
  ((index % columns) * tile_width, (index / columns) * tile_height,
   tile_width, tile_height)

/-- Python `int(q)`: truncation toward zero. -/
def pyInt (q : ℚ) : ℤ :=
  if q < 0 then -⌊-q⌋ else ⌊q⌋

/-- Python `q % 1` for a float `q`: the result has the sign of the divisor, so
it equals `q - ⌊q⌋`. -/
def pyFracPart (q : ℚ) : ℚ := q - (⌊q⌋ : ℚ)

/-- Left-pad a digit string with zeros up to width `w`
(Python format spec `{x:0w}` for the magnitude part). -/
def zfill (w : ℕ) (s : String) : String :=
  if w ≤ s.length then s
  else String.mk (List.replicate (w - s.length) '0') ++ s

/-- Python `f"{x:0w}"` on an integer: zero fill to total width `w`, with a
leading minus sign before the fill for negative values. -/
def fmt0 (w : ℕ) (x : ℤ) : String :=
  if x < 0 then "-" ++ zfill (w - 1) (Nat.repr x.natAbs)
  else zfill w (Nat.repr x.natAbs)

/-- Embedding of `VideoSpriteGenerator.format_time` (video_sprite_generator.py lines
103-108): `millisec = int((seconds % 1) * 1000)`, `seconds = int(seconds)`,
`minutes, seconds = divmod(seconds, 60)`, `hours, minutes = divmod(minutes, 60)`,
rendered as `f"{hours:02}:{minutes:02}:{seconds:02}.{millisec:03}"`.
Python `divmod` on integers is floor division with floor remainder, embedded by
`Int.fdiv` and `Int.fmod`. -/
def format_time (seconds : ℚ) : String :=
  fmt0 2 (Int.fdiv (Int.fdiv (pyInt seconds) 60) 60) ++ ":" ++
  fmt0 2 (Int.fmod (Int.fdiv (pyInt seconds) 60) 60) ++ ":" ++
  fmt0 2 (Int.fmod (pyInt seconds) 60) ++ "." ++
  fmt0 3 (pyInt (pyFracPart seconds * 1000))

/-! ## Tag store and scene processing (stash_utils.py, scene_processor.py) -/

/-- Tag IDs from config.py lines 24-26. -/
def hashing_tag : ℕ := 15015

/-- Error tag ID from config.py. -/
def hashing_error_tag : ℕ := 15018

/-- Cover error tag ID from config.py. -/
def cover_error_tag : ℕ := 15019

/-- One invocation of a stash_utils helper made by `process_scene`.
`claimScene`, `releaseScene` and `tagError` correspond to `claim_scene`,
`release_scene` and `tag_scene_error`; `logFailure` is `log_scene_failure`
(a print, no store mutation); `updatePhash` and `updateCover` mutate
fingerprints and the cover image, not tags. -/
inductive Call where
  | claimScene (sceneId : ℕ)
  | releaseScene (sceneId : ℕ)
  | tagError (sceneId errorTag : ℕ)
  | logFailure (sceneId : ℕ) (step : String)
  | updatePhash (fileId : ℕ)
  | updateCover (sceneId : ℕ)
deriving DecidableEq

/-- The catalog tag state: the set of tag IDs attached to each scene. -/
def TagDB : Type := ℕ → Finset ℕ

/-- Embedding of `tag_scene_error` (stash_utils.py lines 43-54): outside dry-run mode it
first ADDs `errorTag` to the scene and then REMOVEs `hashing_tag`; in
dry-run mode it only prints. -/
def tag_scene_error (dryRun : Bool) (db : TagDB) (sceneId errorTag : ℕ) :
    TagDB :=
  if dryRun then db
  else Function.update db sceneId ((insert errorTag (db sceneId)).erase hashing_tag)

/-- Embedding of `claim_scene` (stash_utils.py lines 56-60): ADD `hashing_tag` unless in
dry-run mode. -/
def claim_scene (dryRun : Bool) (db : TagDB) (sceneId : ℕ) : TagDB :=
  if dryRun then db
  else Function.update db sceneId (insert hashing_tag (db sceneId))

/-- Embedding of `release_scene` (stash_utils.py lines 62-66): REMOVE `hashing_tag` unless
in dry-run mode. -/
def release_scene (dryRun : Bool) (db : TagDB) (sceneId : ℕ) : TagDB :=
  if dryRun then db
  else Function.update db sceneId ((db sceneId).erase hashing_tag)

/-- Effect of one recorded invocation on the catalog tag state, following the
bodies of the stash_utils helpers. `logFailure`, `updatePhash` and
`updateCover` do not change tags. -/
def applyCall (dryRun : Bool) (db : TagDB) : Call → TagDB
  | Call.claimScene sceneId => claim_scene dryRun db sceneId
  | Call.releaseScene sceneId => release_scene dryRun db sceneId
  | Call.tagError sceneId errorTag => tag_scene_error dryRun db sceneId errorTag
  | _ => db

/-- Effect of a sequence of invocations, first to last. -/
def applyCalls (dryRun : Bool) (db : TagDB) (calls : List Call) : TagDB :=
  calls.foldl (applyCall dryRun) db

/-- Predicate picking out `claim_scene` invocations. -/
def isClaim : Call → Bool
  | Call.claimScene _ => true
  | _ => false

/-- Predicate picking out `release_scene` invocations. -/
def isRelease : Call → Bool
  | Call.releaseScene _ => true
  | _ => false

/-- Outcomes of the external collaborators during one `process_scene` run
(scene_processor.py lines 31-234): the dry-run flag, whether the translated
path exists, and for each fallible step whether it succeeds. `coverFetchOk`
is the outer cover try block (fetching the current screenshot and testing it
for `<svg`); `coverNeeded` is that test being positive; step outcomes are
only consulted on the paths where the code actually runs the step. -/
structure SceneOutcomes where
  dryRun : Bool
  fileExists : Bool
  phashOk : Bool
  coverFetchOk : Bool
  coverNeeded : Bool
  coverOk : Bool
  genSprite : Bool
  spriteFilePresent : Bool
  spriteOk : Bool
  genPreview : Bool
  previewFilePresent : Bool
  previewOk : Bool

/-- The phash step of `process_scene` (lines 76-99): in dry-run it only
prints; on success it updates the phash; on failure it logs, tags the scene
with `hashing_error_tag` and sets `success = False`. Returns the invocations
and the contribution of the step to the success flag. -/
def phashStep (o : SceneOutcomes) (sceneId fileId : ℕ) : List Call × Bool :=
  if o.dryRun then ([], true)
  else if o.phashOk then ([Call.updatePhash fileId], true)
  else ([Call.logFailure sceneId "hashing",
         Call.tagError sceneId hashing_error_tag], false)

/-- The cover step of `process_scene` (lines 101-144): an exception in the
outer block or in the inner generation block logs and tags
`cover_error_tag` but never touches the success flag. -/
def coverStep (o : SceneOutcomes) (sceneId : ℕ) : List Call :=
  if ¬o.coverFetchOk then
    [Call.logFailure sceneId "cover image setup",
     Call.tagError sceneId cover_error_tag]
  else if ¬o.coverNeeded then []
  else if o.dryRun then []
  else if o.coverOk then [Call.updateCover sceneId]
  else [Call.logFailure sceneId "cover image generation",
        Call.tagError sceneId cover_error_tag]

/-- The sprite step of `process_scene` (lines 146-178): runs only when sprite
generation is enabled and the sprite file is absent; on failure it logs, tags
`hashing_error_tag` and sets `success = False`. -/
def spriteStep (o : SceneOutcomes) (sceneId : ℕ) : List Call × Bool :=
  if o.genSprite && !o.spriteFilePresent then
    if o.dryRun then ([], true)
    else if o.spriteOk then ([], true)
    else ([Call.logFailure sceneId "sprite generation",
           Call.tagError sceneId hashing_error_tag], false)
  else ([], true)

/-- The preview step of `process_scene` (lines 180-222), analogous to the
sprite step. -/
def previewStep (o : SceneOutcomes) (sceneId : ℕ) : List Call × Bool :=
  if o.genPreview && !o.previewFilePresent then
    if o.dryRun then ([], true)
    else if o.previewOk then ([], true)
    else ([Call.logFailure sceneId "preview generation",
           Call.tagError sceneId hashing_error_tag], false)
  else ([], true)

/-- Embedding of `process_scene` (scene_processor.py lines 31-234). If the translated file
path does not exist it logs, tags `hashing_error_tag` and returns a failure
outcome immediately, without claiming. Otherwise it claims the scene and runs
the four steps inside `try ... finally release_scene(scene_id)`; every step
failure is caught in the body, and the `finally` appends the release
invocation on every exit path. Returns the success flag and the ordered list
of stash_utils invocations. -/
def process_scene (o : SceneOutcomes) (sceneId fileId : ℕ) :
    Bool × List Call :=
  if ¬o.fileExists then
    (false, [Call.logFailure sceneId "file check",
             Call.tagError sceneId hashing_error_tag])
  else
    let ph := phashStep o sceneId fileId
    let cv := coverStep o sceneId
    let sp := spriteStep o sceneId
    let pv := previewStep o sceneId
    (ph.2 && sp.2 && pv.2,
     Call.claimScene sceneId :: (ph.1 ++ cv ++ sp.1 ++ pv.1) ++
       [Call.releaseScene sceneId])

/-- No stash_utils invocation recorded by the phash step is a claim or a
release. -/
lemma phashStep_no_claim_release (o : SceneOutcomes) (sceneId fileId : ℕ) :
    ∀ c ∈ (phashStep o sceneId fileId).1, isClaim c = false ∧ isRelease c = false := by
  intro c hc
  rw [phashStep] at hc
  split at hc
  · simp at hc
  · split at hc <;> simp at hc <;>
      rcases hc with rfl | rfl <;> simp [isClaim, isRelease]

/-- No stash_utils invocation recorded by the cover step is a claim or a
release. -/
lemma coverStep_no_claim_release (o : SceneOutcomes) (sceneId : ℕ) :
    ∀ c ∈ coverStep o sceneId, isClaim c = false ∧ isRelease c = false := by
  intro c hc
  rw [coverStep] at hc
  split at hc
  · simp at hc
    rcases hc with rfl | rfl <;> simp [isClaim, isRelease]
  · split at hc
    · simp at hc
    · split at hc
      · simp at hc
      · split at hc <;> simp at hc
        · rw [hc]; simp [isClaim, isRelease]
        · rcases hc with rfl | rfl <;> simp [isClaim, isRelease]

/-- No stash_utils invocation recorded by the sprite step is a claim or a
release. -/
lemma spriteStep_no_claim_release (o : SceneOutcomes) (sceneId : ℕ) :
    ∀ c ∈ (spriteStep o sceneId).1, isClaim c = false ∧ isRelease c = false := by
  intro c hc
  rw [spriteStep] at hc
  split at hc
  · split at hc
    · simp at hc
    · split at hc <;> simp at hc <;>
        rcases hc with rfl | rfl <;> simp [isClaim, isRelease]
  · simp at hc

/-- No stash_utils invocation recorded by the preview step is a claim or a
release. -/
lemma previewStep_no_claim_release (o : SceneOutcomes) (sceneId : ℕ) :
    ∀ c ∈ (previewStep o sceneId).1, isClaim c = false ∧ isRelease c = false := by
  intro c hc
  rw [previewStep] at hc
  split at hc
  · split at hc
    · simp at hc
    · split at hc <;> simp at hc <;>
        rcases hc with rfl | rfl <;> simp [isClaim, isRelease]
  · simp at hc

/-- A list none of whose elements is a claim or a release contributes zero to
both counts. -/
lemma countP_eq_zero_of_no_claim_release (l : List Call)
    (h : ∀ c ∈ l, isClaim c = false ∧ isRelease c = false) :
    l.countP isClaim = 0 ∧ l.countP isRelease = 0 := by
  constructor <;> rw [List.countP_eq_zero] <;> intro c hc <;>
    simp [(h c hc).1, (h c hc).2]

/-! ## Theorems about claim and release (C1, C6, C10) -/

/-- C1: whenever `process_scene` reaches pipeline entry with an existing file
outside dry-run mode (so the claim is actually taken), its recorded trace
contains exactly one `claim_scene` and exactly one `release_scene` invocation
— the release runs on every exit path, whatever the step outcomes — and after
applying the whole trace to any catalog state (even one already holding the
processing tag) the scene no longer carries `hashing_tag`. -/
theorem process_scene_claim_release (o : SceneOutcomes) (sceneId fileId : ℕ)
    (db : TagDB) (hfile : o.fileExists = true) (hdry : o.dryRun = false) :
    (process_scene o sceneId fileId).2.countP isClaim = 1 ∧
    (process_scene o sceneId fileId).2.countP isRelease = 1 ∧
    hashing_tag ∉ applyCalls o.dryRun db (process_scene o sceneId fileId).2 sceneId := by
  have hph := countP_eq_zero_of_no_claim_release _ (phashStep_no_claim_release o sceneId fileId)
  have hcv := countP_eq_zero_of_no_claim_release _ (coverStep_no_claim_release o sceneId)
  have hsp := countP_eq_zero_of_no_claim_release _ (spriteStep_no_claim_release o sceneId)
  have hpv := countP_eq_zero_of_no_claim_release _ (previewStep_no_claim_release o sceneId)
  rw [process_scene]
  simp only [hfile, not_true_eq_false, Bool.true_eq_false, if_false, ite_false,
    Bool.not_true]
  refine ⟨?_, ?_, ?_⟩
  · simp [List.countP_cons, List.countP_append, hph.1, hcv.1, hsp.1, hpv.1,
      isClaim]
  · simp [List.countP_cons, List.countP_append, hph.2, hcv.2, hsp.2, hpv.2,
      isRelease]
  · rw [applyCalls, hdry]
    rw [show (Call.claimScene sceneId ::
        ((phashStep o sceneId fileId).1 ++ coverStep o sceneId ++
          (spriteStep o sceneId).1 ++ (previewStep o sceneId).1) ++
        [Call.releaseScene sceneId]) =
      (Call.claimScene sceneId ::
        ((phashStep o sceneId fileId).1 ++ coverStep o sceneId ++
          (spriteStep o sceneId).1 ++ (previewStep o sceneId).1)) ++
        [Call.releaseScene sceneId] from rfl]
    rw [List.foldl_append]
    simp [applyCall, release_scene, Function.update_same]

/-- Witness for C1: a run where the phash, sprite and preview steps all fail;
the trace still claims once and releases once, and the processing tag is gone
afterward even though the catalog started with it present. -/
theorem process_scene_claim_release_witness :
    (process_scene ⟨false, true, false, true, false, true, true, false, false,
        true, false, false⟩ 7 3).2.countP isClaim = 1 ∧
    (process_scene ⟨false, true, false, true, false, true, true, false, false,
        true, false, false⟩ 7 3).2.countP isRelease = 1 ∧
    hashing_tag ∉ applyCalls false (fun _ => {hashing_tag})
      (process_scene ⟨false, true, false, true, false, true, true, false, false,
        true, false, false⟩ 7 3).2 7 :=
  process_scene_claim_release _ 7 3 (fun _ => {hashing_tag}) rfl rfl

/-- C6: when the translated file path does not exist, `process_scene` logs the
failure, applies the error tag `hashing_error_tag` (distinct from the
processing tag `hashing_tag`), performs no claim and no release, and returns
immediately with a failure outcome. -/
theorem process_scene_missing_file (o : SceneOutcomes) (sceneId fileId : ℕ)
    (hfile : o.fileExists = false) :
    process_scene o sceneId fileId =
      (false, [Call.logFailure sceneId "file check",
               Call.tagError sceneId hashing_error_tag]) ∧
    (process_scene o sceneId fileId).2.countP isClaim = 0 ∧
    (process_scene o sceneId fileId).2.countP isRelease = 0 ∧
    hashing_error_tag ≠ hashing_tag := by
  have heq : process_scene o sceneId fileId =
      (false, [Call.logFailure sceneId "file check",
               Call.tagError sceneId hashing_error_tag]) := by
    rw [process_scene]
    simp [hfile]
  refine ⟨heq, ?_, ?_, by decide⟩
  · rw [heq]; simp [List.countP_cons, isClaim]
  · rw [heq]; simp [List.countP_cons, isRelease]

/-- Witness for C6 at a concrete outcome record with a missing file. -/
theorem process_scene_missing_file_witness :
    process_scene ⟨false, false, true, true, true, true, true, false, true,
        true, false, true⟩ 9 4 =
      (false, [Call.logFailure 9 "file check",
               Call.tagError 9 hashing_error_tag]) :=
  (process_scene_missing_file _ 9 4 rfl).1

/-- C10: outside dry-run mode, `tag_scene_error` with either of the error tags
the repository passes (`hashing_error_tag` or `cover_error_tag`) leaves the
scene holding the error tag and not holding the processing tag
`hashing_tag`. -/
theorem tag_scene_error_spec (db : TagDB) (sceneId errorTag : ℕ)
    (het : errorTag = hashing_error_tag ∨ errorTag = cover_error_tag) :
    errorTag ∈ tag_scene_error false db sceneId errorTag sceneId ∧
    hashing_tag ∉ tag_scene_error false db sceneId errorTag sceneId := by
  have hne : errorTag ≠ hashing_tag := by
    rcases het with h | h <;> rw [h] <;> decide
  rw [tag_scene_error]
  constructor
  · simp [Function.update_same, Finset.mem_erase, hne]
  · simp [Function.update_same, Finset.mem_erase]

/-- Witness for C10: a scene that holds the processing tag, then gets tagged
with `hashing_error_tag`. -/
theorem tag_scene_error_spec_witness :
    hashing_error_tag ∈
      tag_scene_error false (fun _ => {hashing_tag}) 1 hashing_error_tag 1 ∧
    hashing_tag ∉
      tag_scene_error false (fun _ => {hashing_tag}) 1 hashing_error_tag 1 :=
  tag_scene_error_spec (fun _ => {hashing_tag}) 1 hashing_error_tag (Or.inl rfl)

/-! ## Preview pipeline (preview_video_generator.py) -/

/-- Filesystem state relevant to one `PreviewVideoGenerator` run: whether the
per-run scratch directory (`.tmp/preview_temp_<filehash>`) and the output
preview file exist. -/
structure PreviewFS where
  tempDir : Bool
  output : Bool
deriving DecidableEq

/-- Errors the preview pipeline can raise internally. `concatFailed` is the
`RuntimeError` raised by `concatenate_clips` when ffmpeg exits non-zero. -/
inductive PreviewErr where
  | concatFailed
deriving DecidableEq

/-- Embedding of `PreviewVideoGenerator.clean_previous_clips` (lines 39-41): remove the
scratch directory if it exists. -/
def clean_previous_clips (fs : PreviewFS) : PreviewFS :=
  { fs with tempDir := false }

/-- Embedding of `PreviewVideoGenerator.generate_clips` (lines 43-96): creates the scratch
directory, then extracts one clip per start time in a bounded pool; a failed
extraction is logged and dropped (returns `None`), a successful one appends
its clip file. `outcomes` lists, in submission order, whether each
extraction via ffmpeg succeeds; the returned clips are the indices of the
successful extractions. -/
def generate_clips (outcomes : List Bool) (fs : PreviewFS) :
    List ℕ × PreviewFS :=
  ((outcomes.enum.filter (fun p => p.2)).map (fun p => p.1),
   { fs with tempDir := true })

/-- Embedding of `PreviewVideoGenerator.concatenate_clips` (lines 102-152): splices the
surviving clips; a non-zero ffmpeg exit raises `RuntimeError`, otherwise the
output file is written. `concatOk` is the ffmpeg outcome. -/
def concatenate_clips (concatOk : Bool) (fs : PreviewFS) :
    Except PreviewErr Unit × PreviewFS :=
  if concatOk then (Except.ok (), { fs with output := true })
  else (Except.error PreviewErr.concatFailed, fs)

/-- Embedding of `PreviewVideoGenerator.generate_preview` (lines 154-172): clean, generate
clips, and if no clip survived print a diagnostic and return (before the
`try`/`finally`); otherwise concatenate inside `try ... except ... finally`,
where the `except` swallows any error and the `finally` deletes the scratch
directory. -/
def generate_preview (outcomes : List Bool) (concatOk : Bool)
    (fs : PreviewFS) : Except PreviewErr Unit × PreviewFS :=
  let r := generate_clips outcomes (clean_previous_clips fs)
  if r.1.isEmpty then
    (Except.ok (), r.2)
  else
    (Except.ok (), clean_previous_clips (concatenate_clips concatOk r.2).2)

/-! ## Sprite pipeline (video_sprite_generator.py) -/

/-- Filesystem state relevant to one `VideoSpriteGenerator` run: the per-run
scratch directory (`.tmp/screenshots_<filehash>`), the sprite image and the
caption track file. -/
structure SpriteFS where
  tempDir : Bool
  sprite : Bool
  vtt : Bool
deriving DecidableEq

/-- Errors the sprite pipeline can raise. `frameFailed i` is the
`CalledProcessError` propagated out of `extract_and_resize` for frame `i`
(named `SpriteError` in the spec); `noImages` is the `ValueError` of `create_sprite`
when the scratch directory holds no frames. -/
inductive SpriteErr where
  | frameFailed (i : ℕ)
  | noImages
deriving DecidableEq

/-- Embedding of `VideoSpriteGenerator.clean_previous_files` (lines 41-45): remove the
scratch directory and the caption track if present. -/
def clean_previous_files (fs : SpriteFS) : SpriteFS :=
  { fs with tempDir := false, vtt := false }

/-- Embedding of `VideoSpriteGenerator.take_screenshots` (lines 77-101): clean previous
files, create the scratch directory, probe the duration (returning `False` on
a malformed probe), then write the caption file while collecting every frame
future in submission order; the first failed `extract_and_resize` re-raises
out of the loop. `frameOk i` tells whether the extraction of frame `i` succeeds. -/
def take_screenshots (durationOk : Bool) (frameOk : ℕ → Bool)
    (totalShots : ℕ) (fs : SpriteFS) : Except SpriteErr Bool × SpriteFS :=
  let fs1 : SpriteFS := { clean_previous_files fs with tempDir := true }
  if ¬durationOk then (Except.ok false, fs1)
  else
    let fs2 : SpriteFS := { fs1 with vtt := true }
    match (List.range totalShots).find? (fun i => !frameOk i) with
    | some i => (Except.error (SpriteErr.frameFailed i), fs2)
    | none => (Except.ok true, fs2)

/-- Embedding of `VideoSpriteGenerator.create_sprite` (lines 110-129): raises `ValueError`
if the scratch directory holds no frames, else assembles and saves the sprite
image. On the path that reaches it, the frames present are exactly the
`totalShots` successful extractions. -/
def create_sprite (totalShots : ℕ) (fs : SpriteFS) :
    Except SpriteErr Unit × SpriteFS :=
  if totalShots = 0 then (Except.error SpriteErr.noImages, fs)
  else (Except.ok (), { fs with sprite := true })

/-- Embedding of `VideoSpriteGenerator.clean_up` (lines 131-133): remove the scratch
directory. -/
def clean_up (fs : SpriteFS) : SpriteFS :=
  { fs with tempDir := false }

/-- Embedding of `VideoSpriteGenerator.generate_sprite` (lines 135-145):
`try { result := take_screenshots(); if result then create_sprite() } finally
clean_up()`; any exception propagates to the caller after the cleanup. -/
def generate_sprite (durationOk : Bool) (frameOk : ℕ → Bool)
    (totalShots : ℕ) (fs : SpriteFS) : Except SpriteErr Unit × SpriteFS :=
  match take_screenshots durationOk frameOk totalShots fs with
  | (Except.error e, fs1) => (Except.error e, clean_up fs1)
  | (Except.ok false, fs1) => (Except.ok (), clean_up fs1)
  | (Except.ok true, fs1) =>
      let r := create_sprite totalShots fs1
      (r.1, clean_up r.2)

/-- The surviving-clip list of `generate_clips` is empty exactly when every
extraction failed. -/
lemma enumFrom_filter_eq_nil_iff (n : ℕ) (l : List Bool) :
    ((l.enumFrom n).filter (fun p => p.2)) = [] ↔ ∀ b ∈ l, b = false := by
  induction l generalizing n with
  | nil => simp
  | cons a t ih =>
      cases a <;> simp [List.enumFrom_cons, List.filter_cons, ih]

/-- Specialization of `enumFrom_filter_eq_nil_iff` to the clip list built by
`generate_clips`. -/
lemma generate_clips_fst_eq_nil_iff (outcomes : List Bool) (fs : PreviewFS) :
    (generate_clips outcomes fs).1 = [] ↔ ∀ b ∈ outcomes, b = false := by
  rw [generate_clips]
  simp only [List.map_eq_nil_iff]
  exact enumFrom_filter_eq_nil_iff 0 outcomes

/-! ## Theorems about the preview pipeline (C2, C5) -/

/-- Counterexample to C2 as stated: with five requested clips and all five
extractions failing, `generate_preview` returns normally (`Except.ok`) — it
does not raise any error. -/
theorem generate_preview_no_clips_counterexample :
    generate_preview [false, false, false, false, false] true
      ⟨false, false⟩ = (Except.ok (), ⟨true, false⟩) := rfl

/-- C2 amended: for every run of the preview pipeline in which zero clip
extractions survive, `generate_preview` logs the condition and returns
normally — it raises no error — and writes no output preview file. -/
theorem generate_preview_no_clips (outcomes : List Bool) (concatOk : Bool)
    (fs : PreviewFS) (hall : ∀ b ∈ outcomes, b = false) :
    (generate_preview outcomes concatOk fs).1 = Except.ok () ∧
    (generate_preview outcomes concatOk fs).2.output = fs.output := by
  have hnil : List.map (fun p => p.1)
      (List.filter (fun p => p.2) outcomes.enum) = [] := by
    have := (generate_clips_fst_eq_nil_iff outcomes (clean_previous_clips fs)).mpr hall
    simpa [generate_clips] using this
  rw [generate_preview]
  simp [generate_clips, hnil, clean_previous_clips]

/-- Witness for the amended C2 at five failing extractions. -/
theorem generate_preview_no_clips_witness :
    (generate_preview [false, false, false, false, false] false
        ⟨false, true⟩).1 = Except.ok () ∧
    (generate_preview [false, false, false, false, false] false
        ⟨false, true⟩).2.output = true :=
  generate_preview_no_clips [false, false, false, false, false] false
    ⟨false, true⟩ (by decide)

/-- Counterexample to C5 as stated: on the zero-surviving-clips exit path the
scratch directory created by `generate_clips` is still present after
`generate_preview` returns. -/
theorem generate_preview_cleanup_counterexample :
    (generate_preview [false, false, false] false ⟨false, true⟩).2.tempDir =
      true := by
  decide

/-- C5 amended: `generate_preview` deletes the per-run scratch directory on
the successful-splice and splice-failure exit paths (any run with at least one
surviving clip), but on the zero-surviving-clips path it returns early,
leaving the scratch directory in place. -/
theorem generate_preview_cleanup (outcomes : List Bool) (concatOk : Bool)
    (fs : PreviewFS) :
    ((∃ b ∈ outcomes, b = true) →
      (generate_preview outcomes concatOk fs).2.tempDir = false) ∧
    ((∀ b ∈ outcomes, b = false) →
      (generate_preview outcomes concatOk fs).2.tempDir = true) := by
  constructor
  · intro hex
    have hne : (generate_clips outcomes (clean_previous_clips fs)).1 ≠ [] := by
      rw [Ne, generate_clips_fst_eq_nil_iff]
      intro hall
      obtain ⟨b, hb, hbt⟩ := hex
      rw [hall b hb] at hbt
      exact Bool.false_ne_true hbt
    have hne' : List.map (fun p => p.1)
        (List.filter (fun p => p.2) outcomes.enum) ≠ [] := by
      simpa [generate_clips] using hne
    rw [generate_preview]
    simp [generate_clips, List.isEmpty_iff, hne', clean_previous_clips]
  · intro hall
    have hnil : List.map (fun p => p.1)
        (List.filter (fun p => p.2) outcomes.enum) = [] := by
      have := (generate_clips_fst_eq_nil_iff outcomes (clean_previous_clips fs)).mpr hall
      simpa [generate_clips] using this
    rw [generate_preview]
    simp [generate_clips, hnil]

/-- Witness for the amended C5: two of five extractions survive and splicing
fails, yet the scratch directory is gone afterward. -/
theorem generate_preview_cleanup_witness :
    (generate_preview [false, true, false, true, false] false
        ⟨true, false⟩).2.tempDir = false :=
  (generate_preview_cleanup [false, true, false, true, false] false
      ⟨true, false⟩).1 ⟨true, by decide, rfl⟩

/-! ## Theorems about the sprite pipeline (C3) -/

/-- On a run where the duration probe succeeds and some frame extraction
fails, `take_screenshots` propagates the first such failure. -/
lemma take_screenshots_fail (frameOk : ℕ → Bool) (totalShots : ℕ)
    (fs : SpriteFS) (h : ∃ i, i < totalShots ∧ frameOk i = false) :
    ∃ j, j < totalShots ∧ frameOk j = false ∧
      take_screenshots true frameOk totalShots fs =
        (Except.error (SpriteErr.frameFailed j),
         ⟨true, fs.sprite, true⟩) := by
  rw [take_screenshots]
  simp only [not_true_eq_false, Bool.not_true, if_false, ite_false]
  rcases hfind : (List.range totalShots).find? (fun i => !frameOk i) with _ | j
  · exfalso
    obtain ⟨i, hi, hfail⟩ := h
    have := List.find?_eq_none.mp hfind i (List.mem_range.mpr hi)
    rw [hfail] at this
    exact this rfl
  · refine ⟨j, ?_, ?_, ?_⟩
    · exact List.mem_range.mp (List.mem_of_find?_eq_some hfind)
    · have := List.find?_some hfind
      simpa using this
    · simp [clean_previous_files]

/-- C3: for every run of the sprite pipeline, the per-run scratch directory is
absent after `generate_sprite` returns (success or failure); and whenever the
duration probe succeeds but at least one single-frame extraction fails, the
whole build aborts — the failure propagates out of `generate_sprite` as a
frame-extraction error and no sprite file is produced (the sprite file state
is unchanged). -/
theorem generate_sprite_spec (durationOk : Bool) (frameOk : ℕ → Bool)
    (totalShots : ℕ) (fs : SpriteFS) :
    (generate_sprite durationOk frameOk totalShots fs).2.tempDir = false ∧
    (durationOk = true → (∃ i, i < totalShots ∧ frameOk i = false) →
      (∃ j, (generate_sprite durationOk frameOk totalShots fs).1 =
        Except.error (SpriteErr.frameFailed j)) ∧
      (generate_sprite durationOk frameOk totalShots fs).2.sprite =
        fs.sprite) := by
  constructor
  · rcases hts : take_screenshots durationOk frameOk totalShots fs with ⟨r1, fs1⟩
    rcases r1 with e | b
    · rw [generate_sprite, hts]; simp [clean_up]
    · cases b
      · rw [generate_sprite, hts]; simp [clean_up]
      · rw [generate_sprite, hts]
        by_cases h0 : totalShots = 0 <;> simp [create_sprite, clean_up, h0]
  · intro hdur h
    subst hdur
    obtain ⟨j, hj, hfail, hts⟩ := take_screenshots_fail frameOk totalShots fs h
    rw [generate_sprite, hts]
    exact ⟨⟨j, rfl⟩, rfl⟩

/-- Witness for C3: three shots with the middle extraction failing; the run
aborts with a frame error, the sprite file state is unchanged, and the
scratch directory is gone. -/
theorem generate_sprite_spec_witness :
    (generate_sprite true (fun i => decide (i ≠ 1)) 3
        ⟨false, false, false⟩).2.tempDir = false ∧
    ((∃ j, (generate_sprite true (fun i => decide (i ≠ 1)) 3
        ⟨false, false, false⟩).1 = Except.error (SpriteErr.frameFailed j)) ∧
      (generate_sprite true (fun i => decide (i ≠ 1)) 3
        ⟨false, false, false⟩).2.sprite = false) :=
  ⟨(generate_sprite_spec true (fun i => decide (i ≠ 1)) 3
      ⟨false, false, false⟩).1,
   (generate_sprite_spec true (fun i => decide (i ≠ 1)) 3
      ⟨false, false, false⟩).2 rfl ⟨1, by decide, by decide⟩⟩

/-! ## Scene discovery (scene_discovery.py) -/

/-- A catalog scene as fetched with full metadata: its id and the paths of its
files. -/
structure Scene where
  id : ℕ
  files : List String
deriving DecidableEq

/-- Embedding of `discover_scenes` (scene_discovery.py lines 9-79), parameterized over the
external collaborators: `allIds` is the result of the lightweight id-only
query, `randint` is Python `random.randint` (an oracle drawing an integer in
the inclusive range), `fetchPage` is the full-metadata page query, and
`maskMatch` abstracts `fnmatch(basename(path), config.filemask)` for an
active filemask (`none` when `config.filemask` is unset). Returns the batch
together with the page index fetched (`none` when no page query was made). -/
def discover_scenes (allIds : List ℕ) (perPage : ℕ) (randint : ℕ → ℕ → ℕ)
    (fetchPage : ℕ → List Scene) (maskMatch : Option (String → Bool)) :
    List Scene × Option ℕ :=
  let total_count := allIds.length
  if total_count = 0 then ([], none)
  else
    let total_pages := max 1 ((total_count + perPage - 1) / perPage)
    let selected_page := randint 1 total_pages
    let batch_scenes := fetchPage selected_page
    match maskMatch with
    | none => (batch_scenes, some selected_page)
    | some m =>
        (batch_scenes.filter (fun s => s.files.any (fun f => m f)),
         some selected_page)

/-! ## Theorems about scene discovery (C7) -/

/-- C7: when the id-only query matches nothing, `discover_scenes` returns an
empty batch without fetching any page; otherwise it computes
`totalPages = ceil(totalCount / pageSize)`, draws a page index through
`random.randint(1, totalPages)` — in range `[1, totalPages]` by the randint
contract — and fetches exactly that page with full metadata. -/
theorem discover_scenes_spec (allIds : List ℕ) (perPage : ℕ)
    (randint : ℕ → ℕ → ℕ) (fetchPage : ℕ → List Scene)
    (maskMatch : Option (String → Bool)) (hp : 0 < perPage)
    (hr : ∀ lo hi, lo ≤ hi → lo ≤ randint lo hi ∧ randint lo hi ≤ hi) :
    (allIds.length = 0 →
      discover_scenes allIds perPage randint fetchPage maskMatch = ([], none)) ∧
    (0 < allIds.length →
      max 1 ((allIds.length + perPage - 1) / perPage) =
        allIds.length ⌈/⌉ perPage ∧
      (discover_scenes allIds perPage randint fetchPage maskMatch).2 =
        some (randint 1 (allIds.length ⌈/⌉ perPage)) ∧
      1 ≤ randint 1 (allIds.length ⌈/⌉ perPage) ∧
      randint 1 (allIds.length ⌈/⌉ perPage) ≤ allIds.length ⌈/⌉ perPage ∧
      (maskMatch = none →
        (discover_scenes allIds perPage randint fetchPage maskMatch).1 =
          fetchPage (randint 1 (allIds.length ⌈/⌉ perPage)))) := by
  constructor
  · intro h0
    rw [discover_scenes]
    simp [h0]
  · intro hpos
    have hne : allIds.length ≠ 0 := Nat.pos_iff_ne_zero.mp hpos
    have hceil : allIds.length ⌈/⌉ perPage =
        (allIds.length + perPage - 1) / perPage :=
      Nat.ceilDiv_eq_add_pred_div _ _
    have hone : 1 ≤ (allIds.length + perPage - 1) / perPage := by
      rw [Nat.le_div_iff_mul_le hp, one_mul]
      omega
    have hmax : max 1 ((allIds.length + perPage - 1) / perPage) =
        allIds.length ⌈/⌉ perPage := by
      rw [hceil]
      exact max_eq_right hone
    have hrange := hr 1 (allIds.length ⌈/⌉ perPage)
      (by rw [hceil]; exact hone)
    refine ⟨hmax, ?_, hrange.1, hrange.2, ?_⟩
    · rw [discover_scenes]
      simp only [hne, if_false, ite_false, hmax]
      rcases maskMatch with _ | m <;> simp
    · intro hmask
      subst hmask
      rw [discover_scenes]
      simp only [hne, if_false, ite_false, hmax]

/-- Witness for C7: forty ids with a page size of twenty-five and an oracle
that draws the low end of the range; the recorded fetched page is page 1. -/
theorem discover_scenes_spec_witness :
    (discover_scenes (List.replicate 40 (0 : ℕ)) 25 (fun lo _ => lo)
        (fun _ => []) none).2 = some 1 := by
  have h := (discover_scenes_spec (List.replicate 40 (0 : ℕ)) 25
      (fun lo _ => lo) (fun _ => []) none (by decide)
      (fun lo hi hle => ⟨Nat.le_refl lo, hle⟩)).2 (by decide)
  simpa using h.2.1

/-! ## Theorems about the sampling engine -/

/-- C4: for all `duration, skipSeconds, clipCount ≥ 1, clipLength` with
`duration > skipSeconds + clipLength`, `get_start_times` returns exactly
`clipCount` strictly increasing start times, all within
`[skipSeconds, duration - clipLength]`, with
`interval = (duration - skipSeconds - clipLength) / (clipCount + 1)` and
`start[i] = skipSeconds + interval * i` for `i` in `1..clipCount`. -/
theorem get_start_times_spec (d sk cl : ℚ) (n : ℕ) (hn : 1 ≤ n)
    (h : sk + cl < d) :
    (get_start_times d sk cl n).length = n ∧
    (get_start_times d sk cl n).Pairwise (· < ·) ∧
    (∀ t ∈ get_start_times d sk cl n, sk ≤ t ∧ t ≤ d - cl) ∧
    (∀ i, i < n → (get_start_times d sk cl n)[i]? =
      some (sk + (d - sk - cl) / (n + 1) * (i + 1))) := by
  have hv : 0 < (d - sk - cl) / (n + 1) := by
    apply div_pos (by linarith) (by positivity)
  refine ⟨?_, ?_, ?_, ?_⟩
  · simp only [get_start_times, List.length_map, List.length_range]
  · simp only [get_start_times, List.pairwise_map]
    refine (List.pairwise_lt_range n).imp ?_
    intro a b hab
    have hcast : (a : ℚ) + 1 < (b : ℚ) + 1 := by exact_mod_cast Nat.succ_lt_succ hab
    have := mul_lt_mul_of_pos_left hcast hv
    linarith
  · intro t ht
    simp only [get_start_times, List.mem_map, List.mem_range] at ht
    obtain ⟨i, hi, rfl⟩ := ht
    have h0 : (0:ℚ) ≤ (d - sk - cl) / (n + 1) * (i + 1) := by positivity
    have hle : ((i : ℚ) + 1) ≤ ((n : ℚ) + 1) := by
      have : (i : ℚ) ≤ (n : ℚ) := by exact_mod_cast Nat.le_of_lt hi
      linarith
    have hmul : (d - sk - cl) / (n + 1) * (i + 1) ≤
        (d - sk - cl) / (n + 1) * (n + 1) := by
      exact mul_le_mul_of_nonneg_left hle hv.le
    have hcancel : (d - sk - cl) / (n + 1) * (n + 1) = d - sk - cl := by
      field_simp
    constructor
    · linarith
    · rw [hcancel] at hmul; linarith
  · intro i hi
    simp only [get_start_times, List.getElem?_map, List.getElem?_range hi,
      Option.map_some']

/-- Witness for C4 at `duration = 10`, `skip = 1`, `clipLength = 2`,
`clipCount = 3`. -/
theorem get_start_times_spec_witness :
    (get_start_times 10 1 2 3).length = 3 :=
  (get_start_times_spec 10 1 2 3 (by norm_num) (by norm_num)).1

/-- C8: `gridPlacement` is injective over the index for
`index < columns * rows` (given positive tile dimensions and column count,
as in the source where `columns = 9`, `max_width = 160`, `max_height = 90`),
and `gridPlacement columns columns w h = (0, h, w, h)`. -/
theorem gridPlacement_spec (c r w h : ℕ) (hc : 0 < c) (hw : 0 < w)
    (hh : 0 < h) :
    (∀ i j, i < c * r → j < c * r →
      gridPlacement i c w h = gridPlacement j c w h → i = j) ∧
    gridPlacement c c w h = (0, h, w, h) := by
  constructor
  · intro i j _ _ heq
    rw [gridPlacement, gridPlacement, Prod.mk.injEq, Prod.mk.injEq,
      Prod.mk.injEq] at heq
    obtain ⟨hx, hy, -⟩ := heq
    have hmod : i % c = j % c := Nat.eq_of_mul_eq_mul_right hw hx
    have hdiv : i / c = j / c := Nat.eq_of_mul_eq_mul_right hh hy
    calc i = c * (i / c) + i % c := (Nat.div_add_mod i c).symm
      _ = c * (j / c) + j % c := by rw [hmod, hdiv]
      _ = j := Nat.div_add_mod j c
  · simp [gridPlacement, Nat.mod_self, Nat.div_self hc]

/-- Witness for C8 at the source constants `columns = rows = 9`,
`tileWidth = 160`, `tileHeight = 90`. -/
theorem gridPlacement_spec_witness :
    gridPlacement 9 9 160 90 = (0, 90, 160, 90) :=
  (gridPlacement_spec 9 9 160 90 (by decide) (by decide) (by decide)).2

/-- C9: `format_time` zero-pads all fields and truncates (does not round)
milliseconds, producing `HH:MM:SS.mmm`: the two example values from the spec,
a value showing truncation (`0.9999` yields `999` milliseconds, where rounding
would yield `1000`), and the general fact that the millisecond integer is the
floor of the fractional part times 1000 (so it never rounds up). -/
theorem format_time_spec :
    format_time 0 = "00:00:00.000" ∧
    format_time (7323/2) = "01:01:01.500" ∧
    format_time (9999/10000) = "00:00:00.999" ∧
    (∀ q : ℚ, pyInt (pyFracPart q * 1000) = ⌊pyFracPart q * 1000⌋ ∧
      ((pyInt (pyFracPart q * 1000) : ℚ) ≤ pyFracPart q * 1000 ∧
        pyFracPart q * 1000 < (pyInt (pyFracPart q * 1000) : ℚ) + 1)) := by
  refine ⟨?_, ?_, ?_, ?_⟩
  · have h1 : pyInt (0 : ℚ) = 0 := by norm_num [pyInt, Int.floor_eq_iff]
    have h2 : pyInt (pyFracPart (0 : ℚ) * 1000) = 0 := by
      norm_num [pyInt, pyFracPart, Int.floor_eq_iff]
    rw [format_time, h1, h2]; decide
  · have h1 : pyInt (7323/2 : ℚ) = 3661 := by
      norm_num [pyInt, Int.floor_eq_iff]
    have h2 : pyInt (pyFracPart (7323/2 : ℚ) * 1000) = 500 := by
      norm_num [pyInt, pyFracPart, Int.floor_eq_iff]
    rw [format_time, h1, h2]; decide
  · have h1 : pyInt (9999/10000 : ℚ) = 0 := by
      norm_num [pyInt, Int.floor_eq_iff]
    have h2 : pyInt (pyFracPart (9999/10000 : ℚ) * 1000) = 999 := by
      norm_num [pyInt, pyFracPart, Int.floor_eq_iff]
    rw [format_time, h1, h2]; decide
  · intro q
    have hnonneg : 0 ≤ pyFracPart q * 1000 := by
      have : 0 ≤ pyFracPart q := by
        rw [pyFracPart]
        have hfl : (⌊q⌋ : ℚ) ≤ q := Int.floor_le q
        linarith
      linarith
    have hpy : pyInt (pyFracPart q * 1000) = ⌊pyFracPart q * 1000⌋ := by
      rw [pyInt, if_neg (not_lt.mpr hnonneg)]
    refine ⟨hpy, ?_, ?_⟩
    · rw [hpy]; exact Int.floor_le _
    · rw [hpy]; exact Int.lt_floor_add_one _

end Stash
